import Mathlib

/-!
Shallow embedding of the document-collection store
(`src/stores/documents`, shipped here as `src/unnamed/part_000`).

The store is a Pinia setup store built from Vue refs; we embed its
reactive state as an explicit `StoreState` record and each store action
as a pure function from the current state (plus the responses the remote
gateway would deliver to the awaited calls) to the next state and the
action's return value.  Remote calls never run here: every awaited
gateway response is an explicit oracle argument, so a single run of a
model function corresponds to one completed execution of the action.
-/

namespace DocStore

/-- One entry of a sibling label store.  Modelled from the spec: the tag and
category stores (`src/stores/tags`, `src/stores/categories`) are not part of
the packaged sources; §6 of the spec says they expose ordered sequences of
`{slug, name}`, which also matches every use site in the document store
(`c.slug`, `?.name`). -/
structure Label where
  slug : String
  name : String
deriving DecidableEq, Repr

/-- The `Document` entity of the store (interface `Document`).  The two
join-produced fields `comments` and `user` are never read by the store logic
under verification and are omitted from the embedding. -/
structure Doc where
  category : Option String
  created_at : String
  details : Option String
  file_size : Option Nat
  file_type : Option String
  id : String
  is_draft : Bool
  is_public : Bool
  last_accessed_at : Option String
  name : String
  tags : List String
  updated_at : String
  url : String
  user_id : String
  original_name : Option String
deriving DecidableEq, Repr

/-- Interface `DocumentForm`: the transient create/update projection. -/
structure DocumentForm where
  id : Option String
  name : String
  details : Option String
  url : String
  is_draft : Bool
  is_public : Bool
  tags : List String
  category : Option String
deriving DecidableEq, Repr

/-- Interface `FileDetails`: the optional file-metadata overrides collected
by `updateDocument`; an absent field means the property is not present on
the JS object (and hence does not override on spread). -/
structure FileDetails where
  file_size : Option Nat := none
  file_type : Option String := none
  original_name : Option String := none
  url : Option String := none
deriving DecidableEq, Repr

/-- The relevant part of a browser `File` value: `name`, `size`, `type`. -/
structure FileArg where
  name : String
  size : Nat
  type : String
deriving DecidableEq, Repr

/-- One row of the `document_collaborators` join table, as built by
`insertCollaborators`. -/
structure CollabRow where
  document_id : String
  user_id : String
deriving DecidableEq, Repr

/-- Modelled from the spec: the `Filters` type lives in
`src/components/documents/filters.vue`, which is not part of the packaged
sources; the spec (§3) calls it an "externally defined predicate bag", so we
embed it as opaque structured data that the store only stores and passes
through. -/
structure Filters where
  entries : List (String × String)
deriving DecidableEq, Repr

/-- The `range` member of `DocumentParams`: a zero-based inclusive window. -/
structure RangeWindow where
  «from» : Nat
  «to» : Nat
deriving DecidableEq, Repr

/-- Interface `DocumentParams`: query configuration (order, range, optional
filters).  `Order` (a partial record from sortable field to a boolean) is
embedded as an association list. -/
structure DocumentParams where
  order : List (String × Bool)
  range : RangeWindow
  filters : Option Filters
deriving DecidableEq, Repr

/-- The `GetDocumentsCriteria` union; `priv` embeds the string literal
`"private"` (a Lean keyword). -/
inductive GetDocumentsCriteria where
  | mine
  | priv
  | drafts
  | sharedWithMe
deriving DecidableEq, Repr

/-- An argument passed to `handleDocumentError`.  The handler's guard is
`typeof error === "object" || error.message`: a plain string fails both
disjuncts (its `typeof` is `"string"` and it has no `message` property),
while any object passes the first one; `objVal none` is an object without a
`message` field (its `message` reads back as `undefined`). -/
inductive ErrArg where
  | strVal (s : String)
  | objVal (message : Option String)
deriving DecidableEq, Repr

/-- A `(data, error)` response from a gateway query returning rows.  `data`
is `none` when the JS value is `null`/`undefined` (note that an empty array
is truthy and is `some []` here). -/
structure QueryResponse where
  data : Option (List Doc)
  error : Option ErrArg
deriving DecidableEq, Repr

/-- A `(data, error)` response from a storage call whose `data` is only ever
tested for truthiness; `data = true` means a non-null payload came back. -/
structure StorageResponse where
  data : Bool
  error : Option ErrArg
deriving DecidableEq, Repr

/-- A `(data, error)` response from a storage upload; `path` is `data?.path`
(`none` when `data` is null). -/
structure UploadResponse where
  path : Option String
  error : Option ErrArg
deriving DecidableEq, Repr

/-- The store's reactive state: one field per `ref` of the setup store.
`rawDocuments` embeds the private `_documents` ref (the stored collection);
`errors` embeds the `DocumentFormErrors` object as an association list from
key to the JS value written (`none` = `undefined`); `errorRef` embeds the
`error` ref, which the store only ever resets to `null`. -/
structure StoreState where
  errors : List (String × Option String)
  errorRef : Option String
  loadingAll : Bool
  loadingSingle : Bool
  uploading : Bool
  rawDocuments : List Doc
  perPage : Nat
  pageNumber : Nat
  limitReached : Bool
  totalDocuments : Option Nat
  params : DocumentParams
  loadingNextPage : Bool
deriving DecidableEq, Repr

/-- The initial state of a fresh store instance (the initial values of the
refs, with `params.range.«to» = perPage - 1 = 9`). -/
def initialState : StoreState :=
  { errors := []
    errorRef := none
    loadingAll := false
    loadingSingle := false
    uploading := false
    rawDocuments := []
    perPage := 10
    pageNumber := 1
    limitReached := true
    totalDocuments := none
    params :=
      { order := [("created_at", false)]
        range := { «from» := 0, «to» := 10 - 1 }
        filters := none }
    loadingNextPage := false }

/-- `labels.find((l) => l.slug === slug)?.name ?? slug`: the slug-to-name
lookup both the derived `documents` view and
`updateDocumentTagsAndCategory` perform, with pass-through on a miss. -/
def lookupName (labels : List Label) (slug : String) : String :=
  match labels.find? (fun l => l.slug == slug) with
  | some l => l.name
  | none => slug

/-- `updateDocumentTagsAndCategory(_doc)`: resolve the category slug and
every tag slug through the label stores, passing unmatched slugs through
unchanged (a `null` category stays `null`: no label's slug equals `null`,
and `undefined ?? null` is `null`). -/
def updateDocumentTagsAndCategory (tagStore catStore : List Label) (d : Doc) : Doc :=
  { d with
    category :=
      match d.category with
      | some c => some (lookupName catStore c)
      | none => none
    tags := d.tags.map (fun t => lookupName tagStore t) }

/-- The derived `documents` computed view: the stored collection with every
entry run through the label resolution of `updateDocumentTagsAndCategory`
(the computed's body inlines the same two lookups). -/
def documentsView (tagStore catStore : List Label) (raw : List Doc) : List Doc :=
  raw.map (updateDocumentTagsAndCategory tagStore catStore)

/-- JS property assignment on the error object: replace the value of an
existing key in place, otherwise append the key. -/
def setKey : List (String × Option String) → String → Option String →
    List (String × Option String)
  | [], k, v => [(k, v)]
  | p :: rest, k, v => if p.1 == k then (k, v) :: rest else p :: setKey rest k v

/-- `handleDocumentError(error)`: when the guard
`typeof error === "object" || error.message` passes (i.e. for any object
argument), write `error.message` under the fixed key `"email"` and emit a
toast; a plain-string argument fails the guard and is only logged, leaving
the error map untouched.  The toast and `console.error` are outside the
embedded state. -/
def handleDocumentError (e : ErrArg) (errors : List (String × Option String)) :
    List (String × Option String) :=
  match e with
  | .objVal m => setKey errors "email" m
  | .strVal _ => errors

/-- The body of the `watch(documents, ...)` callback: set `limitReached`
when the new collection length strictly equals `totalDocuments.value`
(a comparison with an unknown `undefined` total is false); the flag is never
cleared here. -/
def recomputeLimit (length : Nat) (totalDocuments : Option Nat)
    (limitReached : Bool) : Bool :=
  if some length == totalDocuments then true else limitReached

/-- `getDocumentCount()`: on a gateway error, route the fixed string
`"Trouble getting document count"` through `handleDocumentError`; when a
truthy (non-zero) count comes back, record it and clear `limitReached` only
if the count exceeds `perPage`. -/
def getDocumentCount (st : StoreState) (countResp : Option Nat)
    (countErr : Option ErrArg) : StoreState :=
  let st1 :=
    match countErr with
    | some _ =>
      { st with errors :=
          handleDocumentError (ErrArg.strVal "Trouble getting document count") st.errors }
    | none => st
  match countResp with
  | some c =>
    if c != 0 then
      let st2 := { st1 with totalDocuments := some c }
      if c > st2.perPage then { st2 with limitReached := false } else st2
    else st1
  | none => st1

/-- `nextPage()` up to the point where it awaits `getDocuments()`: a guard
on `limitReached`, then advance the range window by one page width and bump
the page number. -/
def nextPage (st : StoreState) : StoreState :=
  if st.limitReached then st
  else
    let s := st.params.range.«to» + 1
    { st with
      loadingNextPage := true
      pageNumber := st.pageNumber + 1
      params := { st.params with range := { «from» := s, «to» := s + (st.perPage - 1) } } }

/-- `getDocuments()` for one completed run: set the loading flag, fire the
count query when on page 1 (the call is not awaited; its effects are folded
in sequentially here), reset the error map, route a gateway error through
the handler, append any returned rows to the stored collection, and clear
the loading flags in the `finally` block. -/
def getDocuments (st : StoreState) (countResp : Option Nat)
    (countErr : Option ErrArg) (resp : QueryResponse) : StoreState :=
  let st1 := { st with loadingAll := true }
  let st2 := if st1.pageNumber == 1 then getDocumentCount st1 countResp countErr else st1
  let st3 := { st2 with errors := [] }
  let st4 :=
    match resp.error with
    | some e => { st3 with errors := handleDocumentError e st3.errors }
    | none => st3
  let st5 :=
    match resp.data with
    | some data => { st4 with rawDocuments := st4.rawDocuments ++ data }
    | none => st4
  { st5 with loadingAll := false, loadingNextPage := false }

/-- `getUserDocuments(criteria)` for one completed run.  `svc` is the
criteria-indexed gateway (`getMyDocuments`, `getMyPrivateDocuments`,
`getMyDraftDocuments`, `getDocumentsSharedWithMe`); the switch dispatches on
the criteria.  The collection is cleared up front and never re-assigned; on
success the label-enriched rows are only returned to the caller. -/
def getUserDocuments (st : StoreState) (tagStore catStore : List Label)
    (criteria : GetDocumentsCriteria)
    (svc : GetDocumentsCriteria → QueryResponse) :
    StoreState × Option (List Doc) :=
  let st1 := { st with loadingAll := true, rawDocuments := [], errors := [] }
  let response :=
    match criteria with
    | .mine => svc .mine
    | .priv => svc .priv
    | .drafts => svc .drafts
    | .sharedWithMe => svc .sharedWithMe
  match response.error with
  | some e =>
    ({ st1 with errors := handleDocumentError e st1.errors, loadingAll := false }, none)
  | none =>
    match response.data with
    | some data =>
      ({ st1 with loadingAll := false },
        some (data.map (updateDocumentTagsAndCategory tagStore catStore)))
    | none => ({ st1 with loadingAll := false }, none)

/-- `Array.from(new Set(xs))`: de-duplicate keeping the first occurrence of
each element, in insertion order. -/
def jsSetDedup (l : List String) : List String :=
  l.foldl (fun acc x => if acc.contains x then acc else acc ++ [x]) []

/-- The payload built by `insertCollaborators(documentId, collaborators)`:
if the acting user's id occurs in the input list, `splice` removes its
*first* occurrence (`findIndex` of the first match); the remaining list is
then de-duplicated with set semantics and paired with the document id.
(The JS code mutates the caller's array in place; the payload is what gets
inserted.) -/
def insertCollaborators (user : Option String) (documentId : String)
    (collaborators : List String) : List CollabRow :=
  let collaborators1 :=
    match user with
    | some uid =>
      if collaborators.contains uid then collaborators.erase uid else collaborators
    | none => collaborators
  (jsSetDedup collaborators1).map (fun uid => ⟨documentId, uid⟩)

/-- `getDocument(id)` for one completed run: set the loading flag, reset the
error map, route a gateway error through the handler, and return the first
returned row (an empty or null `data` yields `null`); the loading flag is
cleared in the `finally` block. -/
def getDocument (st : StoreState) (resp : QueryResponse) : StoreState × Option Doc :=
  let st1 := { st with loadingSingle := true, errors := [] }
  let st2 :=
    match resp.error with
    | some e => { st1 with errors := handleDocumentError e st1.errors }
    | none => st1
  match resp.data with
  | some (d :: _) => ({ st2 with loadingSingle := false }, some d)
  | _ => ({ st2 with loadingSingle := false }, none)

/-- `uploadFile(file)` for one completed run: a missing file writes the
validation message under the key `"document"` and returns `null` without any
remote call; otherwise the storage upload runs, a storage error returns
`null` *without* routing through `handleDocumentError`, and on success the
stored object path is returned; `uploading` is cleared in the `finally`
block.  (The slug-based object naming feeds the upload request only and is
absorbed into the oracle response.) -/
def uploadFile (st : StoreState) (file : Option FileArg) (resp : UploadResponse) :
    StoreState × Option String :=
  match file with
  | none =>
    ({ st with errors := setKey st.errors "document" (some "No file selected") }, none)
  | some _ =>
    let st1 := { st with uploading := true }
    match resp.error with
    | some _ => ({ st1 with uploading := false }, none)
    | none => ({ st1 with uploading := false }, resp.path)

/-- `updateFile(url, file)` for one completed run: a storage error is routed
through the handler and yields `null`; otherwise the new object path (or
`null`) is returned. -/
def updateFile (st : StoreState) (resp : UploadResponse) : StoreState × Option String :=
  match resp.error with
  | some e => ({ st with errors := handleDocumentError e st.errors }, none)
  | none =>
    match resp.path with
    | some p => (st, some p)
    | none => (st, none)

/-- `deleteFile(path)` for one completed run: a storage error is routed
through the handler; the boolean result is the truthiness of `data`. -/
def deleteFile (st : StoreState) (resp : StorageResponse) : StoreState × Bool :=
  let st1 :=
    match resp.error with
    | some e => { st with errors := handleDocumentError e st.errors }
    | none => st
  (st1, resp.data)

/-- The merged return value of `updateDocument`:
`{...doc, ...payload}` where `payload = {...data, ...fileDetails,
updated_at}`.  A `FileDetails` field overrides only when present; the
optional `form.id`, when present, ends up in the payload and overrides the
document's id on merge. -/
def mergeDoc (doc : Doc) (form : DocumentForm) (fd : FileDetails) (now : String) : Doc :=
  { doc with
    id := form.id.getD doc.id
    name := form.name
    details := form.details
    url := fd.url.getD form.url
    is_draft := form.is_draft
    is_public := form.is_public
    tags := form.tags
    category := form.category
    file_size := fd.file_size.or doc.file_size
    file_type := fd.file_type.or doc.file_type
    original_name := fd.original_name.or doc.original_name
    updated_at := now }

/-- `updateCollaborators(documentId, collaborators)` for one completed run:
delete all existing join rows (a non-204 status routes the fixed string
`"Error removing collaborators ( 1 )"` through the handler, which — being a
string — leaves the error map untouched), then insert the reconciled
payload. -/
def updateCollaborators (st : StoreState) (user : Option String)
    (documentId : String) (collaborators : List String) (delStatus : Nat) :
    StoreState × List CollabRow :=
  let st1 :=
    if delStatus != 204 then
      { st with errors :=
          handleDocumentError (ErrArg.strVal "Error removing collaborators ( 1 )") st.errors }
    else st
  (st1, insertCollaborators user documentId collaborators)

/-- `updateDocument(id, data, file?, collaborators)` for one completed run:
load the document (return `false` when absent), collect file-metadata
overrides when a replacement file is supplied, issue the row update, treat
any status other than 204 as failure (routing a string through the handler,
then returning `false`), and on success reconcile collaborators and return
the merged document.  `now` stands for `new Date().toISOString()`. -/
def updateDocument (st : StoreState) (id : String) (form : DocumentForm)
    (file : Option FileArg) (collaborators : List String) (user : Option String)
    (now : String) (getResp : QueryResponse) (fileResp : UploadResponse)
    (rowStatus : Nat) (delStatus : Nat) : StoreState × Option Doc :=
  let st1 := { st with loadingSingle := true, errorRef := none }
  let g := getDocument st1 getResp
  match g.2 with
  | none => ({ g.1 with loadingSingle := false }, none)
  | some doc =>
    let r : StoreState × FileDetails :=
      match file with
      | some f =>
        let u := updateFile g.1 fileResp
        (u.1,
          { file_size := some f.size, file_type := some f.type,
            original_name := some f.name, url := u.2 })
      | none => (g.1, {})
    if rowStatus != 204 then
      ({ r.1 with
          errors :=
            handleDocumentError (ErrArg.strVal "Document not succcessfully updated") r.1.errors
          loadingSingle := false }, none)
    else
      let c := updateCollaborators r.1 user id collaborators delStatus
      ({ c.1 with loadingSingle := false }, some (mergeDoc doc form r.2 now))

/-- `deleteDocument(id)` for one completed run: load the document (return
`false` when absent), delete the backing file (a failure routes an object
without a `message` field through the handler and the row delete proceeds),
issue the row delete, treat any status other than 204 as failure leaving the
collection untouched, and on success assign
`documents.value.filter((d) => d.id !== id)` — the *derived, label-resolved*
view with the matching entries removed — back into the stored collection. -/
def deleteDocument (st : StoreState) (tagStore catStore : List Label) (id : String)
    (getResp : QueryResponse) (fileResp : StorageResponse) (rowStatus : Nat) :
    StoreState × Bool :=
  let st1 := { st with loadingSingle := true, errorRef := none }
  let g := getDocument st1 getResp
  match g.2 with
  | none => ({ g.1 with loadingSingle := false }, false)
  | some _doc =>
    let f := deleteFile g.1 fileResp
    let st2 :=
      if f.2 then f.1
      else { f.1 with errors := handleDocumentError (ErrArg.objVal none) f.1.errors }
    if rowStatus != 204 then
      ({ st2 with
          errors :=
            handleDocumentError (ErrArg.strVal "Document not succcessfully deleted") st2.errors
          loadingSingle := false }, false)
    else
      ({ st2 with
          rawDocuments :=
            (documentsView tagStore catStore st2.rawDocuments).filter (fun d => d.id != id)
          loadingSingle := false }, true)

/-- `resetDocuments()`: empty the stored collection. -/
def resetDocuments (st : StoreState) : StoreState :=
  { st with rawDocuments := [] }

/-- The synchronous part of `updateFilters(filters)`: replace the filters in
the params, clear the stored collection, then call `getDocuments()`.  The
second component is the `params.value` the triggered fetch reads — note the
range and page number are left as they are. -/
def updateFilters (st : StoreState) (filters : Filters) : StoreState × DocumentParams :=
  let st1 := { st with params := { st.params with filters := some filters } }
  let st2 := resetDocuments st1
  (st2, st2.params)

/-- The synchronous part of `resetFilters()`: drop the filters from the
params (`delete params.value.filters`), clear the stored collection, then
call `getDocuments()`; the second component is the `params.value` the
triggered fetch reads. -/
def resetFilters (st : StoreState) : StoreState × DocumentParams :=
  let st1 := { st with params := { st.params with filters := none } }
  let st2 := resetDocuments st1
  (st2, st2.params)

/-- `resetParams()`: restore the default order and range (no fetch). -/
def resetParams (st : StoreState) : StoreState :=
  { st with params :=
      { order := [("created_at", false)]
        range := { «from» := 0, «to» := st.perPage - 1 }
        filters := none } }

/-! ### Concrete fixtures used by counterexamples and witnesses -/

/-- A concrete document used as a template by the concrete scenarios. -/
def baseDoc : Doc :=
  { category := none
    created_at := "2024-01-01T00:00:00Z"
    details := none
    file_size := none
    file_type := none
    id := "doc-1"
    is_draft := false
    is_public := true
    last_accessed_at := none
    name := "Doc one"
    tags := []
    updated_at := "2024-01-01T00:00:00Z"
    url := "public/doc-1"
    user_id := "user-1"
    original_name := none }

/-- A tag store whose entry names are themselves slugs of later entries:
`"a" ↦ "b"` and `"b" ↦ "c"`. -/
def chainTags : List Label := [⟨"a", "b"⟩, ⟨"b", "c"⟩]

/-- A document carrying the single tag slug `"a"`. -/
def chainDoc : Doc := { baseDoc with tags := ["a"] }

/-! ### Helper lemmas about the error map -/

/-- After `setKey m k v`, looking up `k` finds `v`. -/
theorem lookup_setKey (m : List (String × Option String)) (k : String)
    (v : Option String) : (setKey m k v).lookup k = some v := by
  induction m with
  | nil => simp [setKey, List.lookup]
  | cons p rest ih =>
    obtain ⟨pk, pv⟩ := p
    by_cases h : pk = k
    · simp [setKey, h, List.lookup]
    · have hk : (k == pk) = false := by simpa using Ne.symm h
      simp only [setKey]
      rw [if_neg (by simpa using h)]
      simpa [List.lookup, hk] using ih

/-- `setKey` introduces no key other than the one written. -/
theorem mem_setKey (m : List (String × Option String)) (k : String)
    (v : Option String) (p : String × Option String)
    (hp : p ∈ setKey m k v) : p.1 = k ∨ p ∈ m := by
  induction m with
  | nil => simp [setKey] at hp; simp [hp]
  | cons q rest ih =>
    by_cases h : q.1 = k
    · simp [setKey, h] at hp
      rcases hp with hp | hp
      · left; simp [hp]
      · right; simp [hp]
    · simp only [setKey] at hp
      rw [if_neg (by simpa using h)] at hp
      rcases List.mem_cons.mp hp with hp | hp
      · right; simp [hp]
      · rcases ih hp with hk | hm
        · left; exact hk
        · right; exact List.mem_cons_of_mem _ hm

/-! ### Claims -/

/-- C3: the claim says the persisted collaborator payload never contains the
acting user's id, for any input, including inputs repeating that id.  The
code removes only the first occurrence of the acting user's id (splice at
`findIndex`) *before* de-duplicating, so an input holding the id twice
leaves one copy, which survives de-duplication into the payload: with acting
user `"u1"` and input `["u1", "u1"]` the persisted payload is exactly
`[{document_id := "d1", user_id := "u1"}]`. -/
theorem insertCollaborators_keeps_duplicated_user :
    insertCollaborators (some "u1") "d1" ["u1", "u1"] =
      [{ document_id := "d1", user_id := "u1" }] ∧
    ((insertCollaborators (some "u1") "d1" ["u1", "u1"]).map
      (fun r => r.user_id)).contains "u1" = true := by
  constructor
  · rfl
  · rfl

/-- C4 (counterexample): the claimed "iff" fails in the only-if direction.
From the initial store state, a count response of `5` (not exceeding
`perPage = 10`) records `totalDocuments = some 5` while leaving
`limitReached = true`; the recomputation at a collection length of `3` then
keeps `limitReached = true` although `3 ≠ 5` and the total is known. -/
theorem recomputeLimit_not_iff :
    (getDocumentCount initialState (some 5) none).totalDocuments = some 5 ∧
    (getDocumentCount initialState (some 5) none).limitReached = true ∧
    recomputeLimit 3 (some 5) true = true ∧ (3 : Nat) ≠ 5 := by
  refine ⟨rfl, rfl, rfl, by decide⟩

/-- C4 (amended): after the recomputation that runs when the collection
changes, `limitReached` is true whenever the collection length equals the
known `totalDocuments`; when the length differs (or the total is unknown),
the recomputation leaves the flag at its previous value — it never clears
it, so it may remain true with a known, different total. -/
theorem recomputeLimit_spec (len total : Nat) (prev : Bool) :
    (len = total → recomputeLimit len (some total) prev = true) ∧
    (len ≠ total → recomputeLimit len (some total) prev = prev) ∧
    recomputeLimit len none prev = prev := by
  refine ⟨fun h => ?_, fun h => ?_, ?_⟩
  · simp [recomputeLimit, h]
  · simp [recomputeLimit, h]
  · simp [recomputeLimit]

/-- Witness for `recomputeLimit_spec` at concrete inputs: an equal length
sets the flag, a different length keeps the previous (true) flag. -/
theorem recomputeLimit_spec_witness :
    recomputeLimit 5 (some 5) false = true ∧ recomputeLimit 4 (some 5) true = true :=
  ⟨(recomputeLimit_spec 5 5 false).1 rfl, (recomputeLimit_spec 4 5 true).2.1 (by decide)⟩

/-- C9 (counterexample): the resolver is not idempotent for every state of
the lookup collections.  With the tag store `[{slug "a", name "b"},
{slug "b", name "c"}]`, resolving a document tagged `["a"]` yields tags
`["b"]`, and resolving that result again yields `["c"]`: resolving an
already-resolved document changes it. -/
theorem resolver_not_idempotent :
    updateDocumentTagsAndCategory chainTags [] (updateDocumentTagsAndCategory chainTags [] chainDoc)
      ≠ updateDocumentTagsAndCategory chainTags [] chainDoc := by
  decide

/-- C10 (counterexample): not every error routed through
`handleDocumentError` is recorded under the key `"email"`.  The store routes
the plain string `"Document not succcessfully deleted"` through the handler
(on a non-204 delete status); a string fails the handler's guard, so
starting from an empty error map the map stays empty and no `"email"` entry
exists. -/
theorem handleDocumentError_string_not_recorded :
    handleDocumentError (ErrArg.strVal "Document not succcessfully deleted") [] = [] ∧
    (handleDocumentError (ErrArg.strVal "Document not succcessfully deleted") []).lookup
      "email" = none := by
  refine ⟨rfl, rfl⟩

/-- C10 (amended): every *object-valued* error routed through the shared
handler is recorded in the error map under the single fixed key `"email"`
(with the object's `message`, possibly `undefined`), regardless of which
operation or field caused it; a *string-valued* error leaves the map
untouched (it is only logged and toasted); the handler introduces no key
other than `"email"`; and only the missing-file validation of
`uploadFile`/`createDocument` writes the different key `"document"`.  Hence
the map never attributes a gateway or orchestration error to the field it
concerns. -/
theorem handleDocumentError_spec (errors : List (String × Option String))
    (m : Option String) (s : String) (st : StoreState) (resp : UploadResponse) :
    handleDocumentError (ErrArg.objVal m) errors = setKey errors "email" m ∧
    (handleDocumentError (ErrArg.objVal m) errors).lookup "email" = some m ∧
    handleDocumentError (ErrArg.strVal s) errors = errors ∧
    (∀ p : String × Option String,
      p ∈ handleDocumentError (ErrArg.objVal m) errors → p.1 = "email" ∨ p ∈ errors) ∧
    (uploadFile st none resp).1.errors = setKey st.errors "document" (some "No file selected") ∧
    (uploadFile st none resp).2 = none := by
  refine ⟨rfl, ?_, rfl, ?_, rfl, rfl⟩
  · simpa [handleDocumentError] using lookup_setKey errors "email" m
  · intro p hp
    exact mem_setKey errors "email" m p (by simpa [handleDocumentError] using hp)

/-- Witness for `handleDocumentError_spec` at a concrete input: an object
error with message `"boom"`, starting from an empty map, is recorded under
`"email"`. -/
theorem handleDocumentError_spec_witness :
    (handleDocumentError (ErrArg.objVal (some "boom")) []).lookup "email" = some (some "boom") :=
  (handleDocumentError_spec [] (some "boom") "x" initialState ⟨none, none⟩).2.1

/-- For the idempotence half of C9: when every display name of the lookup
collection resolves to itself, one lookup is a fixed point of the next. -/
theorem lookupName_idem (labels : List Label)
    (hfix : ∀ l ∈ labels, lookupName labels l.name = l.name) (t : String) :
    lookupName labels (lookupName labels t) = lookupName labels t := by
  rcases hf : labels.find? (fun l => l.slug == t) with _ | l
  · have h1 : lookupName labels t = t := by simp [lookupName, hf]
    rw [h1]
    exact h1
  · have hmem : l ∈ labels := List.mem_of_find?_eq_some hf
    have h1 : lookupName labels t = l.name := by simp [lookupName, hf]
    rw [h1]
    exact hfix l hmem

/-- An already-resolved document is a fixed point of the resolver whenever
every display name of the lookup collections resolves to itself. -/
theorem updateDocumentTagsAndCategory_idem (tagStore catStore : List Label)
    (htag : ∀ l ∈ tagStore, lookupName tagStore l.name = l.name)
    (hcat : ∀ l ∈ catStore, lookupName catStore l.name = l.name) (d : Doc) :
    updateDocumentTagsAndCategory tagStore catStore
        (updateDocumentTagsAndCategory tagStore catStore d) =
      updateDocumentTagsAndCategory tagStore catStore d := by
  have htags : ∀ ts : List String,
      (ts.map (fun t => lookupName tagStore t)).map (fun t => lookupName tagStore t) =
        ts.map (fun t => lookupName tagStore t) := by
    intro ts
    induction ts with
    | nil => rfl
    | cons a ts ih => simp only [List.map_cons, ih, lookupName_idem tagStore htag a]
  cases d with
  | mk cat cr de fs ft idf isd isp la nm tg up ur ui orig =>
    simp only [updateDocumentTagsAndCategory, Doc.mk.injEq, htags]
    rcases cat with _ | c
    · simp
    · simp [lookupName_idem catStore hcat c]

/-- C9 (amended): for every document and *every* state of the lookup
collections, the resolver (i) preserves the number and order of tags,
producing exactly the per-slug lookup; (ii) passes a slug through unchanged
when no lookup entry matches it; (iii) maps a slug to the display name of
the first matching lookup entry when one exists (so it never fails); and
(iv) — only this part carries a proviso — it is idempotent provided every
display name occurring in the lookup collections resolves to itself (for
instance when names are not themselves slugs of other entries); without
that proviso idempotence fails, see the counterexample. -/
theorem resolver_spec (tagStore catStore : List Label) (d : Doc) :
    ((updateDocumentTagsAndCategory tagStore catStore d).tags =
      d.tags.map (fun t => lookupName tagStore t)) ∧
    (∀ t, (∀ l ∈ tagStore, l.slug ≠ t) → lookupName tagStore t = t) ∧
    (∀ t l, tagStore.find? (fun x => x.slug == t) = some l →
      l ∈ tagStore ∧ l.slug = t ∧ lookupName tagStore t = l.name) ∧
    ((∀ l ∈ tagStore, lookupName tagStore l.name = l.name) →
      (∀ l ∈ catStore, lookupName catStore l.name = l.name) →
      updateDocumentTagsAndCategory tagStore catStore
          (updateDocumentTagsAndCategory tagStore catStore d) =
        updateDocumentTagsAndCategory tagStore catStore d) := by
  refine ⟨rfl, fun t ht => ?_, fun t l hf => ?_,
    fun htag hcat => updateDocumentTagsAndCategory_idem tagStore catStore htag hcat d⟩
  · have hn : tagStore.find? (fun l => l.slug == t) = none :=
      List.find?_eq_none.mpr (fun x hx => by simpa using ht x hx)
    simp [lookupName, hn]
  · refine ⟨List.mem_of_find?_eq_some hf, ?_, by simp [lookupName, hf]⟩
    simpa using List.find?_some hf

/-- Witness for `resolver_spec` at a concrete input: with the single-entry
tag store `"a" ↦ "Alpha"` (whose name `"Alpha"` resolves to itself) and a
document tagged `["a", "zz"]`, resolving twice equals resolving once. -/
theorem resolver_spec_witness :
    updateDocumentTagsAndCategory [⟨"a", "Alpha"⟩] []
        (updateDocumentTagsAndCategory [⟨"a", "Alpha"⟩] []
          { baseDoc with tags := ["a", "zz"] }) =
      updateDocumentTagsAndCategory [⟨"a", "Alpha"⟩] []
        { baseDoc with tags := ["a", "zz"] } :=
  (resolver_spec [⟨"a", "Alpha"⟩] [] { baseDoc with tags := ["a", "zz"] }).2.2.2
    (by decide) (by decide)

/-- A second concrete document, distinct from `baseDoc`. -/
def docTwo : Doc := { baseDoc with id := "doc-2", name := "Doc two" }

/-- An initial-like state whose stored collection already holds `baseDoc`. -/
def stNonEmpty : StoreState := { initialState with rawDocuments := [baseDoc] }

/-- A criteria-indexed gateway that returns the single row `docTwo` with no
error, for every criteria. -/
def svcFixed : GetDocumentsCriteria → QueryResponse := fun _ => ⟨some [docTwo], none⟩

/-- C1 (counterexample): `getUserDocuments` does not set the stored
collection to the fetched rows.  Starting from a state whose collection
holds `baseDoc`, with a gateway returning the single row `docTwo`
successfully, the call returns `some [docTwo]` to the caller but leaves the
stored collection empty — cleared, never re-assigned — so the collection is
not the fetched rows. -/
theorem getUserDocuments_does_not_store_rows :
    (getUserDocuments stNonEmpty [] [] .mine svcFixed).2 = some [docTwo] ∧
    (getUserDocuments stNonEmpty [] [] .mine svcFixed).1.rawDocuments = [] ∧
    (getUserDocuments stNonEmpty [] [] .mine svcFixed).1.rawDocuments ≠ [docTwo] := by
  refine ⟨rfl, rfl, by decide⟩

/-- C1 (amended): for every criteria in {mine, private, drafts,
sharedWithMe} and every successful fetch, `getUserDocuments` clears the
store's document collection up front and leaves it empty (the fetched rows
are *not* written back into the store); it returns the label-enriched rows
to the caller; and beyond that clear, the error-map reset and the loading
flag, it leaves store-visible state (pagination counters and params)
untouched. -/
theorem getUserDocuments_clears_and_returns_enriched
    (st : StoreState) (tagStore catStore : List Label)
    (criteria : GetDocumentsCriteria) (svc : GetDocumentsCriteria → QueryResponse)
    (rows : List Doc)
    (h1 : (svc criteria).error = none) (h2 : (svc criteria).data = some rows) :
    (getUserDocuments st tagStore catStore criteria svc).1.rawDocuments = [] ∧
    (getUserDocuments st tagStore catStore criteria svc).2 =
      some (rows.map (updateDocumentTagsAndCategory tagStore catStore)) ∧
    (getUserDocuments st tagStore catStore criteria svc).1.loadingAll = false ∧
    (getUserDocuments st tagStore catStore criteria svc).1.errors = [] ∧
    (getUserDocuments st tagStore catStore criteria svc).1.pageNumber = st.pageNumber ∧
    (getUserDocuments st tagStore catStore criteria svc).1.limitReached = st.limitReached ∧
    (getUserDocuments st tagStore catStore criteria svc).1.totalDocuments =
      st.totalDocuments ∧
    (getUserDocuments st tagStore catStore criteria svc).1.params = st.params := by
  cases criteria <;> simp [getUserDocuments, h1, h2]

/-- Witness for `getUserDocuments_clears_and_returns_enriched` at a concrete
input: the successful `svcFixed` fetch from `stNonEmpty` leaves the stored
collection empty. -/
theorem getUserDocuments_clears_witness :
    (getUserDocuments stNonEmpty [] [] .mine svcFixed).1.rawDocuments = [] :=
  (getUserDocuments_clears_and_returns_enriched stNonEmpty [] [] .mine svcFixed
    [docTwo] rfl rfl).1

/-- The tag store `"alpha" ↦ "Alpha"`. -/
def slugTags : List Label := [⟨"alpha", "Alpha"⟩]

/-- A document stored under the raw tag slug `"alpha"`. -/
def docSlugged : Doc := { baseDoc with id := "d-slug", tags := ["alpha"] }

/-- A second stored document, the one being deleted. -/
def docOther : Doc := { baseDoc with id := "d-other" }

/-- A state storing `docSlugged` and `docOther` (both with raw slugs). -/
def stSlugged : StoreState := { initialState with rawDocuments := [docSlugged, docOther] }

/-- The `getDocument` response delivering `docOther`. -/
def getRespOther : QueryResponse := ⟨some [docOther], none⟩

/-- A storage delete that succeeds (non-null data, no error). -/
def fileOK : StorageResponse := ⟨true, none⟩

/-- C2: the claim — that the stored collection always keeps raw slugs and
display names are never written back — is the spec's stated invariant, and
the code breaks it in `deleteDocument`: on a successful delete it assigns
the *derived, label-resolved* view (`documents.value.filter(...)`) back into
the private `_documents` ref instead of filtering the raw collection.
Concretely, deleting `"d-other"` (status 204) from a collection storing the
slug `"alpha"` leaves the remaining stored entry holding the display name
`"Alpha"`, not the slug. -/
theorem deleteDocument_persists_display_names :
    (deleteDocument stSlugged slugTags [] "d-other" getRespOther fileOK 204).2 = true ∧
    (deleteDocument stSlugged slugTags [] "d-other" getRespOther fileOK 204).1.rawDocuments =
      [{ docSlugged with tags := ["Alpha"] }] ∧
    ({ docSlugged with tags := ["Alpha"] }) ≠ docSlugged := by
  refine ⟨rfl, rfl, by decide⟩

/-- A category store `"cat-1" ↦ "Research"`. -/
def catLabels : List Label := [⟨"cat-1", "Research"⟩]

/-- A document stored under the raw category slug `"cat-1"`. -/
def docCat : Doc := { baseDoc with id := "d-x", category := some "cat-1" }

/-- The document being deleted in the C8 scenario. -/
def docY : Doc := { baseDoc with id := "d-y" }

/-- A state storing `docCat` and `docY`. -/
def stCat : StoreState := { initialState with rawDocuments := [docCat, docY] }

/-- The `getDocument` response delivering `docY`. -/
def getRespY : QueryResponse := ⟨some [docY], none⟩

/-- A storage delete whose `data` is null (the failure the code tolerates). -/
def fileFail : StorageResponse := ⟨false, none⟩

/-- C8: the failure-path halves of the claim hold on the code — a non-204
row-delete status returns `false` and leaves the collection unchanged, and a
failed backing-file deletion is non-fatal (the row delete still proceeds and
succeeds) — but the success path does *not* merely remove the matching
entry: because the code assigns the resolved derived view back into the
store, deleting `"d-y"` (status 204) yields a collection different from the
original with the matching entry removed (the surviving entry's category
slug has been rewritten to its display name). -/
theorem deleteDocument_rewrites_remaining :
    (deleteDocument stCat [] catLabels "d-y" getRespY fileOK 204).2 = true ∧
    (deleteDocument stCat [] catLabels "d-y" getRespY fileOK 204).1.rawDocuments ≠
      stCat.rawDocuments.filter (fun d => d.id != "d-y") ∧
    (deleteDocument stCat [] catLabels "d-y" getRespY fileOK 500).2 = false ∧
    (deleteDocument stCat [] catLabels "d-y" getRespY fileOK 500).1.rawDocuments =
      stCat.rawDocuments ∧
    (deleteDocument stCat [] catLabels "d-y" getRespY fileFail 204).2 = true := by
  refine ⟨rfl, by decide, rfl, rfl, rfl⟩

/-- The state after one page advance from a fresh store with a cleared
limit: page number 2, range `[10, 19]`. -/
def statePage2 : StoreState := nextPage { initialState with limitReached := false }

/-- A concrete filter bag. -/
def exFilters : Filters := ⟨[("tag", "alpha")]⟩

/-- C5 (counterexample): the fetch triggered by `updateFilters` (and
`resetFilters`) is not a *first-page* fetch for every state of the params
model: from the page-2 state the triggered `getDocuments()` reads the
untouched `params.value`, whose range still starts at 10 (not 0) with page
number still 2 — neither the range nor the page number is reset. -/
theorem updateFilters_not_first_page :
    (updateFilters statePage2 exFilters).2.range.«from» = 10 ∧
    (updateFilters statePage2 exFilters).2.range.«from» ≠ 0 ∧
    (updateFilters statePage2 exFilters).1.pageNumber = 2 ∧
    (resetFilters statePage2).2.range.«from» = 10 := by
  refine ⟨rfl, by decide, rfl, rfl⟩

/-- C5 (amended): for every current state of the params model,
`updateFilters` replaces the filters (and `resetFilters` clears them), both
empty the local collection synchronously — the collection is empty before
the triggered fetch resolves — and both trigger a fetch that reads the
*current* params: the range and page number are left exactly as they were,
so the refetch is a first-page fetch only when pagination had not
advanced. -/
theorem updateFilters_resetFilters_spec (st : StoreState) (f : Filters) :
    (updateFilters st f).1.rawDocuments = [] ∧
    (updateFilters st f).1.params.filters = some f ∧
    (updateFilters st f).2 = (updateFilters st f).1.params ∧
    (updateFilters st f).1.params.range = st.params.range ∧
    (updateFilters st f).1.pageNumber = st.pageNumber ∧
    (resetFilters st).1.rawDocuments = [] ∧
    (resetFilters st).1.params.filters = none ∧
    (resetFilters st).2 = (resetFilters st).1.params ∧
    (resetFilters st).1.params.range = st.params.range ∧
    (resetFilters st).1.pageNumber = st.pageNumber := by
  simp [updateFilters, resetFilters, resetDocuments]

/-- C6: for every pagination state satisfying the store's window invariant
(the inclusive range is exactly one page wide and the page size is
positive — both hold for every reachable state, where `perPage` is fixed at
10), `nextPage` is a no-op when `limitReached` is true; otherwise it sets
`from` to the previous `to + 1`, `to` to the new `from + perPage - 1`, and
increments `pageNumber`; and in either case the call never decreases
`pageNumber`, never moves either endpoint backwards, and preserves the
window width. -/
theorem nextPage_spec (st : StoreState) (hp : 1 ≤ st.perPage)
    (hw : st.params.range.«to» + 1 = st.params.range.«from» + st.perPage) :
    (st.limitReached = true → nextPage st = st) ∧
    (st.limitReached = false →
      (nextPage st).params.range.«from» = st.params.range.«to» + 1 ∧
      (nextPage st).params.range.«to» =
        (nextPage st).params.range.«from» + st.perPage - 1 ∧
      (nextPage st).pageNumber = st.pageNumber + 1) ∧
    st.pageNumber ≤ (nextPage st).pageNumber ∧
    st.params.range.«from» ≤ (nextPage st).params.range.«from» ∧
    st.params.range.«to» ≤ (nextPage st).params.range.«to» ∧
    (nextPage st).params.range.«to» + 1 =
      (nextPage st).params.range.«from» + st.perPage := by
  cases hl : st.limitReached <;> simp [nextPage, hl] <;> omega

/-- Witness for `nextPage_spec` at a concrete input: from the fresh state
with the limit cleared, one advance increments the page number. -/
theorem nextPage_spec_witness :
    (nextPage { initialState with limitReached := false }).pageNumber =
      { initialState with limitReached := false }.pageNumber + 1 :=
  ((nextPage_spec { initialState with limitReached := false } (by decide)
    (by decide)).2.1 rfl).2.2

/-- C7: for every `updateDocument` and `deleteDocument` call that reaches
the row-level mutation (the document lookup returned a row), the call
succeeds — returns the merged document resp. `true` — exactly when the
gateway reports status 204; any other status yields the failure sentinel
(`false`), no explicit error payload needed. -/
theorem rowMutation_success_iff_204
    (stU stD : StoreState) (tagStore catStore : List Label) (id : String)
    (form : DocumentForm) (file : Option FileArg) (collaborators : List String)
    (user : Option String) (now : String) (getResp : QueryResponse)
    (fileResp : UploadResponse) (delFileResp : StorageResponse)
    (rowStatus delStatus : Nat) (d : Doc) (rest : List Doc)
    (h : getResp.data = some (d :: rest)) :
    ((updateDocument stU id form file collaborators user now getResp fileResp
        rowStatus delStatus).2 ≠ none ↔ rowStatus = 204) ∧
    ((deleteDocument stD tagStore catStore id getResp delFileResp rowStatus).2 = true
      ↔ rowStatus = 204) := by
  have hg1 : ∀ st : StoreState, (getDocument st getResp).2 = some d := by
    intro st
    rcases getResp with ⟨data, error⟩
    cases h
    cases error <;> simp [getDocument]
  constructor
  · have hu := hg1 { stU with loadingSingle := true, errorRef := none }
    simp only [updateDocument, hu]
    by_cases hs : rowStatus = 204 <;> simp [hs, bne_iff_ne]
  · have hd := hg1 { stD with loadingSingle := true, errorRef := none }
    simp only [deleteDocument, hd]
    by_cases hs : rowStatus = 204 <;> simp [hs, bne_iff_ne]

/-- Witness for `rowMutation_success_iff_204` at a concrete input: with a
found document and status 204, the delete reports success. -/
theorem rowMutation_success_iff_204_witness :
    (deleteDocument initialState [] [] "doc-1" ⟨some [baseDoc], none⟩ fileOK 204).2 = true :=
  ((rowMutation_success_iff_204 initialState initialState [] [] "doc-1"
    { id := none, name := "n", details := none, url := "u", is_draft := false,
      is_public := true, tags := [], category := none }
    none [] none "t" ⟨some [baseDoc], none⟩ ⟨none, none⟩ fileOK 204 204
    baseDoc [] rfl).2).mpr rfl

end DocStore
